import Mathlib

/-!
Shallow embedding of `scripts/load_pwc_data_to_postgres.py`: the checkpointed,
resumable bulk loader that reads four parquet-backed entity streams (papers,
datasets, code links, evaluation records) and upserts them into a Postgres
database.  Pandas dataframes become Lean lists of row records, the database
becomes an explicit in-memory state, and the checkpoint pickle file becomes an
`Option Checkpoint` together with a trace of every `save_checkpoint` call.
Field transforms that are orthogonal to control flow (authors JSON decoding,
date parsing) are carried as already-coerced `Option` values, since their
internal `try/except` blocks cannot change the insert/skip accounting.
-/

/-- The checkpoint dictionary created by `load_checkpoint` (lines 30-39):
per-stream offsets and completion flags. -/
structure Checkpoint where
  papers_offset : Nat
  datasets_offset : Nat
  links_offset : Nat
  eval_offset : Nat
  papers_complete : Bool
  datasets_complete : Bool
  links_complete : Bool
  eval_complete : Bool
deriving DecidableEq, Repr

/-- The default checkpoint returned by `load_checkpoint` when no file exists. -/
def freshCheckpoint : Checkpoint :=
  ⟨0, 0, 0, 0, false, false, false, false⟩

/-- Model of `load_checkpoint` (lines 25-39): read the pickle file contents, or return
the all-zero / all-incomplete default. -/
def load_checkpoint (file : Option Checkpoint) : Checkpoint :=
  file.getD freshCheckpoint

/-- One row of the papers parquet file.  `arxiv_id = none` models a NaN
(`pd.isna`) natural key; `date` and `authors` carry the values after the
loader's local coercion. -/
structure PaperRow where
  arxiv_id : Option String
  title : Option String
  abstract : Option String
  url_abs : Option String
  url_pdf : Option String
  date : Option String
  authors : Option String
deriving DecidableEq, Repr

/-- One row of the datasets parquet file, fields post-coercion. -/
structure DatasetRow where
  name : Option String
  description : Option String
  modalities : Option (List String)
  homepage : Option String
  paper_url : Option String
deriving DecidableEq, Repr

/-- One row of the links-between-paper-and-code parquet file. -/
structure LinkRow where
  paper_arxiv_id : Option String
  repo_url : Option String
  framework : Option String
  is_official : Option Bool
deriving DecidableEq, Repr

/-- A raw metric value as found in the evaluation parquet: either numeric
(where Python's `float(...)` succeeds) or a non-numeric payload (where it
raises `ValueError`/`TypeError`). -/
inductive MetricVal where
  | numeric (v : Int)
  | nonNumeric (s : String)
deriving DecidableEq, Repr

/-- Python `float(metric_value)`: succeeds exactly on numeric payloads. -/
def MetricVal.toFloat? : MetricVal → Option Int
  | .numeric v => some v
  | .nonNumeric _ => none

/-- One row of the evaluation-tables parquet file.  `none` in `dataset`,
`task`, `paper_arxiv_id` or `value` models NaN/absent (`pd.isna`). -/
structure EvalRow where
  dataset : Option String
  task : Option String
  paper_arxiv_id : Option String
  metric : Option String
  value : Option MetricVal
deriving DecidableEq, Repr

/-- A row of the destination `papers` table
(`papers(id, title, abstract, arxiv_id UNIQUE, arxiv_url, pdf_url,
published_date, authors)`).  `arxiv_id` is a nullable column, so the type
permits `none`; the loader is supposed never to store one. -/
structure PaperRec where
  id : Nat
  title : Option String
  abstract : Option String
  arxiv_id : Option String
  arxiv_url : Option String
  pdf_url : Option String
  published_date : Option String
  authors : Option String
deriving DecidableEq, Repr

/-- A row of the destination `datasets` table (`name UNIQUE`). -/
structure DatasetRec where
  id : Nat
  name : Option String
  description : Option String
  modalities : Option (List String)
  homepage_url : Option String
  paper_url : Option String
deriving DecidableEq, Repr

/-- A row of the destination `implementations` table.  `paper_id` is typed
nullable so that the referential invariant (never insert a null/invalid paper
reference) is contentful. -/
structure ImplRec where
  id : Nat
  paper_id : Option Nat
  github_url : Option String
  framework : Option String
  is_official : Bool
deriving DecidableEq, Repr

/-- A row of the destination `benchmarks` table (`UNIQUE(name, dataset_id)`,
`dataset_id` nullable FK). -/
structure BenchRec where
  id : Nat
  name : String
  dataset_id : Option Nat
  task : String
deriving DecidableEq, Repr

/-- A row of the destination `benchmark_results` table
(`UNIQUE(paper_id, benchmark_id, metric_name)`). -/
structure ResultRec where
  id : Nat
  paper_id : Nat
  benchmark_id : Nat
  metric_name : String
  metric_value : Int
deriving DecidableEq, Repr

/-- The destination Postgres database.  `nextId` is the shared serial id
counter (Postgres serials start at 1). -/
structure DB where
  papers : List PaperRec
  datasets : List DatasetRec
  implementations : List ImplRec
  benchmarks : List BenchRec
  benchmark_results : List ResultRec
  nextId : Nat
deriving DecidableEq, Repr

/-- An empty destination database. -/
def DB.empty : DB := ⟨[], [], [], [], [], 1⟩

/-- Python truthiness of an optional string (`if not github_url`,
`if metric_name`): `None` and the empty string are falsy. -/
def pyTruthyStr : Option String → Bool
  | none => false
  | some s => s ≠ ""

/-- Python truthiness of an optional row id (`if paper_id`): `None` and `0`
are falsy (destination serial ids start at 1, so stored ids are truthy). -/
def pyTruthyId : Option Nat → Bool
  | none => false
  | some n => n ≠ 0

/-- Model of `INSERT INTO papers ... ON CONFLICT (arxiv_id) DO NOTHING RETURNING id`
(lines 124-137).  A conflict arises when an existing row carries the same
non-null `arxiv_id` (Postgres unique indexes treat NULLs as distinct); on
conflict nothing is returned and the database is unchanged. -/
def insertPaper (db : DB) (row : PaperRow) (a : String) : Option Nat × DB :=
  if db.papers.any (fun p => p.arxiv_id = some a) then
    (none, db)
  else
    (some db.nextId,
     { db with
        papers := db.papers ++
          [⟨db.nextId, row.title, row.abstract, some a, row.url_abs,
            row.url_pdf, row.date, row.authors⟩],
        nextId := db.nextId + 1 })

/-- Model of `INSERT INTO datasets ... ON CONFLICT (name) DO NOTHING RETURNING id`
(lines 207-218).  A NULL name never conflicts. -/
def insertDataset (db : DB) (row : DatasetRow) : Option Nat × DB :=
  if (match row.name with
      | some s => db.datasets.any (fun d => d.name = some s)
      | none => false) then
    (none, db)
  else
    (some db.nextId,
     { db with
        datasets := db.datasets ++
          [⟨db.nextId, row.name, row.description, row.modalities,
            row.homepage, row.paper_url⟩],
        nextId := db.nextId + 1 })

/-- Model of `SELECT id FROM papers WHERE arxiv_id = %s LIMIT 1` (lines 284-286). -/
def lookupPaperId (db : DB) (a : String) : Option Nat :=
  (db.papers.find? (fun p => p.arxiv_id = some a)).map (·.id)

/-- Model of `SELECT id FROM datasets WHERE name = %s LIMIT 1` (line 374). -/
def lookupDatasetId (db : DB) (n : String) : Option Nat :=
  (db.datasets.find? (fun d => d.name = some n)).map (·.id)

/-- Model of `INSERT INTO implementations ... ON CONFLICT DO NOTHING RETURNING id`
(lines 300-305).  Modelled from the spec: the migration SQL that defines the
destination constraints is not in the repository; the spec's schema contract
lists no uniqueness constraint on `implementations` beyond its primary key, so
the bare `ON CONFLICT DO NOTHING` never fires and the insert always returns a
fresh id. -/
def insertImplementation (db : DB) (pid : Nat) (github_url : Option String)
    (framework : Option String) (is_official : Bool) : Option Nat × DB :=
  (some db.nextId,
   { db with
      implementations := db.implementations ++
        [⟨db.nextId, some pid, github_url, framework, is_official⟩],
      nextId := db.nextId + 1 })

/-- The `ON CONFLICT (name, dataset_id)` arbiter of the benchmarks upsert:
an existing row conflicts when it has the same name and the same non-null
`dataset_id` (NULLs are distinct in a Postgres unique index). -/
def benchConflict (name : String) (dsId : Option Nat) (b : BenchRec) : Bool :=
  b.name = name &&
    (match b.dataset_id, dsId with
     | some d1, some d2 => d1 = d2
     | _, _ => false)

/-- Model of `INSERT INTO benchmarks ... ON CONFLICT (name, dataset_id) DO UPDATE SET
task = EXCLUDED.task RETURNING id` (lines 379-384).  A conflict requires an
existing row with the same name and the same non-null `dataset_id` (NULLs are
distinct in the unique index); on conflict the existing row's `task` is
updated in place and its id returned, otherwise a fresh row is inserted.
Always returns an id. -/
def upsertBenchmark (db : DB) (name : String) (dsId : Option Nat)
    (task : String) : Nat × DB :=
  match db.benchmarks.find? (benchConflict name dsId) with
  | some b =>
      (b.id,
       { db with
          benchmarks := db.benchmarks.map
            (fun r => if r.id = b.id then { r with task := task } else r) })
  | none =>
      (db.nextId,
       { db with
          benchmarks := db.benchmarks ++ [⟨db.nextId, name, dsId, task⟩],
          nextId := db.nextId + 1 })

/-- The `ON CONFLICT (paper_id, benchmark_id, metric_name)` arbiter of the
benchmark-results insert. -/
def resultConflict (pid bid : Nat) (metric_name : String)
    (r : ResultRec) : Bool :=
  r.paper_id = pid && r.benchmark_id = bid && r.metric_name = metric_name

/-- Model of `INSERT INTO benchmark_results ... ON CONFLICT (paper_id, benchmark_id,
metric_name) DO NOTHING RETURNING id` (lines 403-408). -/
def insertBenchmarkResult (db : DB) (pid bid : Nat) (metric_name : String)
    (metric_value : Int) : Option Nat × DB :=
  if db.benchmark_results.any (resultConflict pid bid metric_name) then
    (none, db)
  else
    (some db.nextId,
     { db with
        benchmark_results := db.benchmark_results ++
          [⟨db.nextId, pid, bid, metric_name, metric_value⟩],
        nextId := db.nextId + 1 })

/-- Python's `range(k, len, step)` with a positive step, as used by every
loader's batch loop `for i in range(start_offset, len(df), batch_size)`
(lines 83, 189, 270, 358): the list of batch start indices. -/
def batchStarts (step k len : Nat) : List Nat :=
  if h : k < len ∧ 0 < step then k :: batchStarts step (k + step) len else []
termination_by len - k
decreasing_by omega

theorem batchStarts_pos {step k len : Nat} (h : k < len) (hs : 0 < step) :
    batchStarts step k len = k :: batchStarts step (k + step) len := by
  rw [batchStarts]; simp [h, hs]

theorem batchStarts_stop {step k len : Nat} (h : ¬(k < len ∧ 0 < step)) :
    batchStarts step k len = [] := by
  rw [batchStarts]; simp only [dif_neg h]

/-- The row indices covered by the slice `df.iloc[i:i+batch_size]` of a
dataframe of length `len` (lines 84, 190, 271, 359). -/
def sliceIdx (batch_size i len : Nat) : List Nat :=
  List.range' i (min batch_size (len - i))

/-- All row indices iterated by a loader loop that starts at offset `k` over
a source of length `len`, in iteration order. -/
def loopIdx (batch_size k len : Nat) : List Nat :=
  (batchStarts batch_size k len).flatMap (fun i => sliceIdx batch_size i len)

/-- Processing one papers row (lines 86-146): a NaN `arxiv_id` is skipped
before any insert; otherwise the conflict-tolerant insert runs and the row
counts as inserted exactly when `RETURNING id` produced a row.  Returns
(inserted?, new database). -/
def processPaperRow (db : DB) (row : PaperRow) : Bool × DB :=
  match row.arxiv_id with
  | none => (false, db)
  | some a =>
      let r := insertPaper db row a
      (r.1.isSome, r.2)

/-- One iteration of the papers counting fold: bump `inserted` or `skipped`
according to `processPaperRow` (lines 139-142 together with the skip paths). -/
def papersStepF (acc : Nat × Nat × DB) (row : PaperRow) : Nat × Nat × DB :=
  match processPaperRow acc.2.2 row with
  | (true, db') => (acc.1 + 1, acc.2.1, db')
  | (false, db') => (acc.1, acc.2.1 + 1, db')

/-- The inner `for _, row in batch.iterrows()` loop of `load_papers`
(lines 86-146), accumulating (inserted, skipped, database). -/
def processPapersBatch (db : DB) (rows : List PaperRow) : Nat × Nat × DB :=
  rows.foldl papersStepF (0, 0, db)

/-- Processing one datasets row (lines 192-227): no pre-insert skip
condition; the row counts as inserted exactly when the conflict-tolerant
insert returned an id. -/
def processDatasetRow (db : DB) (row : DatasetRow) : Bool × DB :=
  let r := insertDataset db row
  (r.1.isSome, r.2)

/-- One iteration of the datasets counting fold. -/
def datasetsStepF (acc : Nat × Nat × DB) (row : DatasetRow) : Nat × Nat × DB :=
  match processDatasetRow acc.2.2 row with
  | (true, db') => (acc.1 + 1, acc.2.1, db')
  | (false, db') => (acc.1, acc.2.1 + 1, db')

/-- The inner loop of `load_datasets` (lines 192-227). -/
def processDatasetsBatch (db : DB) (rows : List DatasetRow) : Nat × Nat × DB :=
  rows.foldl datasetsStepF (0, 0, db)

/-- Processing one code-links row (lines 273-314): skip on falsy repo url or
NaN arxiv id; skip when the referenced paper is not found; otherwise insert
the implementation with the looked-up paper id. -/
def processLinkRow (db : DB) (row : LinkRow) : Bool × DB :=
  if !pyTruthyStr row.repo_url || row.paper_arxiv_id = none then
    (false, db)
  else
    match row.paper_arxiv_id with
    | none => (false, db)
    | some a =>
        match lookupPaperId db a with
        | none => (false, db)
        | some pid =>
            let r := insertImplementation db pid row.repo_url
              row.framework (row.is_official.getD false)
            (r.1.isSome, r.2)

/-- One iteration of the code-links counting fold. -/
def linksStepF (acc : Nat × Nat × DB) (row : LinkRow) : Nat × Nat × DB :=
  match processLinkRow acc.2.2 row with
  | (true, db') => (acc.1 + 1, acc.2.1, db')
  | (false, db') => (acc.1, acc.2.1 + 1, db')

/-- The inner loop of `load_code_links` (lines 273-314). -/
def processLinksBatch (db : DB) (rows : List LinkRow) : Nat × Nat × DB :=
  rows.foldl linksStepF (0, 0, db)

/-- The per-row increments produced by one evaluation row. -/
structure EvalStep where
  skp : Nat
  insB : Nat
  insR : Nat
  db : DB
deriving DecidableEq, Repr

/-- Processing one evaluation row (lines 361-417): skip when dataset or task
is NaN; otherwise always upsert the benchmark (counting it as an inserted
benchmark even when the upsert hit an existing row), then insert the result
only when a paper was found, the metric name is truthy, the value is not NaN
and `float(value)` succeeds. -/
def processEvalRow (db : DB) (row : EvalRow) : EvalStep :=
  match row.dataset, row.task with
  | some d, some t =>
      let benchmark_name := d ++ " - " ++ t
      let dsId := lookupDatasetId db d
      let up := upsertBenchmark db benchmark_name dsId t
      let pid : Option Nat :=
        match row.paper_arxiv_id with
        | some a => lookupPaperId up.2 a
        | none => none
      if pyTruthyId pid && pyTruthyStr row.metric && row.value.isSome then
        match pid, row.value.bind MetricVal.toFloat?, row.metric with
        | some p, some v, some m =>
            let r := insertBenchmarkResult up.2 p up.1 m v
            ⟨0, 1, if r.1.isSome then 1 else 0, r.2⟩
        | _, _, _ => ⟨0, 1, 0, up.2⟩
      else ⟨0, 1, 0, up.2⟩
  | _, _ => ⟨1, 0, 0, db⟩

/-- One iteration of the evaluation counting fold. -/
def evalStepF (acc : EvalStep) (row : EvalRow) : EvalStep :=
  let st := processEvalRow acc.db row
  ⟨acc.skp + st.skp, acc.insB + st.insB, acc.insR + st.insR, st.db⟩

/-- The inner loop of `load_evaluation_tables` (lines 361-417), accumulating
(skipped, inserted_benchmarks, inserted_results, database). -/
def processEvalBatch (db : DB) (rows : List EvalRow) : EvalStep :=
  rows.foldl evalStepF ⟨0, 0, 0, db⟩

/-- The world outside the database: the checkpoint pickle file (`none` =
absent), the trace of every `save_checkpoint` call made so far, the
destination database, and the four source parquet files (`none` = the file
does not exist on disk). -/
structure SysState where
  file : Option Checkpoint
  saves : List Checkpoint
  db : DB
  papersSrc : Option (List PaperRow)
  datasetsSrc : Option (List DatasetRow)
  linksSrc : Option (List LinkRow)
  evalSrc : Option (List EvalRow)
deriving DecidableEq, Repr

/-- Model of `save_checkpoint` (lines 42-45): overwrite the pickle file and record the
write in the trace. -/
def save_checkpoint (c : Checkpoint) (s : SysState) : SysState :=
  { s with file := some c, saves := s.saves ++ [c] }

/-- Model of `clear_checkpoint` (lines 48-51): delete the pickle file if present
(idempotent). -/
def clear_checkpoint (s : SysState) : SysState :=
  { s with file := none }

/-- The result of one loader invocation: `ret` is the Python return value;
`inserted`/`skipped` are the loader's counters (for the evaluation loader
`inserted` is `inserted_benchmarks` and `inserted2` is `inserted_results`,
which is also its return value; `inserted2 = 0` elsewhere); `procIdx` lists
the source row indices iterated, in order; `s` and `ckpt` are the final
world state and checkpoint dictionary. -/
structure LoadOut where
  ret : Nat
  inserted : Nat
  inserted2 : Nat
  skipped : Nat
  procIdx : List Nat
  s : SysState
  ckpt : Option Checkpoint
deriving Repr

/-- Accumulator of a loader's outer batch loop. -/
structure LoopSt where
  ins : Nat
  skp : Nat
  idx : List Nat
  s : SysState
  ck : Option Checkpoint
deriving Repr

/-- The outer batch loop of `load_papers` (lines 83-155), iterating over the
batch start indices: slice the dataframe, process the batch, commit, then
set `papers_offset = i + batch_size` and save the checkpoint (lines
150-153, uncapped). -/
def loadPapersGo (df : List PaperRow) (batch_size : Nat) :
    List Nat → LoopSt → LoopSt
  | [], st => st
  | i :: rest, st =>
      let batch := (df.drop i).take batch_size
      let r := processPapersBatch st.s.db batch
      let s1 : SysState := { st.s with db := r.2.2 }
      let next : SysState × Option Checkpoint :=
        match st.ck with
        | some c =>
            let c' := { c with papers_offset := i + batch_size }
            (save_checkpoint c' s1, some c')
        | none => (s1, none)
      loadPapersGo df batch_size rest
        ⟨st.ins + r.1, st.skp + r.2.1,
         st.idx ++ sliceIdx batch_size i df.length, next.1, next.2⟩

/-- Model of `load_papers` (lines 59-163): return 0 if the parquet file is missing or
the stream is already complete; otherwise process batches from the
checkpoint's `papers_offset`, then set `papers_complete = true` and save. -/
def load_papers (s : SysState) (batch_size : Nat)
    (ckpt : Option Checkpoint) : LoadOut :=
  match s.papersSrc with
  | none => ⟨0, 0, 0, 0, [], s, ckpt⟩
  | some df =>
      if (ckpt.map (·.papers_complete)).getD false then
        ⟨0, 0, 0, 0, [], s, ckpt⟩
      else
        let start_offset := (ckpt.map (·.papers_offset)).getD 0
        let st := loadPapersGo df batch_size
          (batchStarts batch_size start_offset df.length) ⟨0, 0, [], s, ckpt⟩
        match st.ck with
        | some c =>
            let c' := { c with papers_complete := true }
            ⟨st.ins, st.ins, 0, st.skp, st.idx, save_checkpoint c' st.s, some c'⟩
        | none => ⟨st.ins, st.ins, 0, st.skp, st.idx, st.s, none⟩

/-- The outer batch loop of `load_datasets` (lines 189-236). -/
def loadDatasetsGo (df : List DatasetRow) (batch_size : Nat) :
    List Nat → LoopSt → LoopSt
  | [], st => st
  | i :: rest, st =>
      let batch := (df.drop i).take batch_size
      let r := processDatasetsBatch st.s.db batch
      let s1 : SysState := { st.s with db := r.2.2 }
      let next : SysState × Option Checkpoint :=
        match st.ck with
        | some c =>
            let c' := { c with datasets_offset := i + batch_size }
            (save_checkpoint c' s1, some c')
        | none => (s1, none)
      loadDatasetsGo df batch_size rest
        ⟨st.ins + r.1, st.skp + r.2.1,
         st.idx ++ sliceIdx batch_size i df.length, next.1, next.2⟩

/-- Model of `load_datasets` (lines 166-244). -/
def load_datasets (s : SysState) (batch_size : Nat)
    (ckpt : Option Checkpoint) : LoadOut :=
  match s.datasetsSrc with
  | none => ⟨0, 0, 0, 0, [], s, ckpt⟩
  | some df =>
      if (ckpt.map (·.datasets_complete)).getD false then
        ⟨0, 0, 0, 0, [], s, ckpt⟩
      else
        let start_offset := (ckpt.map (·.datasets_offset)).getD 0
        let st := loadDatasetsGo df batch_size
          (batchStarts batch_size start_offset df.length) ⟨0, 0, [], s, ckpt⟩
        match st.ck with
        | some c =>
            let c' := { c with datasets_complete := true }
            ⟨st.ins, st.ins, 0, st.skp, st.idx, save_checkpoint c' st.s, some c'⟩
        | none => ⟨st.ins, st.ins, 0, st.skp, st.idx, st.s, none⟩

/-- The outer batch loop of `load_code_links` (lines 270-323). -/
def loadLinksGo (df : List LinkRow) (batch_size : Nat) :
    List Nat → LoopSt → LoopSt
  | [], st => st
  | i :: rest, st =>
      let batch := (df.drop i).take batch_size
      let r := processLinksBatch st.s.db batch
      let s1 : SysState := { st.s with db := r.2.2 }
      let next : SysState × Option Checkpoint :=
        match st.ck with
        | some c =>
            let c' := { c with links_offset := i + batch_size }
            (save_checkpoint c' s1, some c')
        | none => (s1, none)
      loadLinksGo df batch_size rest
        ⟨st.ins + r.1, st.skp + r.2.1,
         st.idx ++ sliceIdx batch_size i df.length, next.1, next.2⟩

/-- Model of `load_code_links` (lines 247-331). -/
def load_code_links (s : SysState) (batch_size : Nat)
    (ckpt : Option Checkpoint) : LoadOut :=
  match s.linksSrc with
  | none => ⟨0, 0, 0, 0, [], s, ckpt⟩
  | some df =>
      if (ckpt.map (·.links_complete)).getD false then
        ⟨0, 0, 0, 0, [], s, ckpt⟩
      else
        let start_offset := (ckpt.map (·.links_offset)).getD 0
        let st := loadLinksGo df batch_size
          (batchStarts batch_size start_offset df.length) ⟨0, 0, [], s, ckpt⟩
        match st.ck with
        | some c =>
            let c' := { c with links_complete := true }
            ⟨st.ins, st.ins, 0, st.skp, st.idx, save_checkpoint c' st.s, some c'⟩
        | none => ⟨st.ins, st.ins, 0, st.skp, st.idx, st.s, none⟩

/-- Accumulator of the evaluation loader's outer batch loop
(inserted_benchmarks / inserted_results / skipped). -/
structure EvalLoopSt where
  insB : Nat
  insR : Nat
  skp : Nat
  idx : List Nat
  s : SysState
  ck : Option Checkpoint
deriving Repr

/-- The outer batch loop of `load_evaluation_tables` (lines 358-426). -/
def loadEvalGo (df : List EvalRow) (batch_size : Nat) :
    List Nat → EvalLoopSt → EvalLoopSt
  | [], st => st
  | i :: rest, st =>
      let batch := (df.drop i).take batch_size
      let step := processEvalBatch st.s.db batch
      let s1 : SysState := { st.s with db := step.db }
      let next : SysState × Option Checkpoint :=
        match st.ck with
        | some c =>
            let c' := { c with eval_offset := i + batch_size }
            (save_checkpoint c' s1, some c')
        | none => (s1, none)
      loadEvalGo df batch_size rest
        ⟨st.insB + step.insB, st.insR + step.insR, st.skp + step.skp,
         st.idx ++ sliceIdx batch_size i df.length, next.1, next.2⟩

/-- Model of `load_evaluation_tables` (lines 334-434): returns `inserted_results`. -/
def load_evaluation_tables (s : SysState) (batch_size : Nat)
    (ckpt : Option Checkpoint) : LoadOut :=
  match s.evalSrc with
  | none => ⟨0, 0, 0, 0, [], s, ckpt⟩
  | some df =>
      if (ckpt.map (·.eval_complete)).getD false then
        ⟨0, 0, 0, 0, [], s, ckpt⟩
      else
        let start_offset := (ckpt.map (·.eval_offset)).getD 0
        let st := loadEvalGo df batch_size
          (batchStarts batch_size start_offset df.length)
          ⟨0, 0, 0, [], s, ckpt⟩
        match st.ck with
        | some c =>
            let c' := { c with eval_complete := true }
            ⟨st.insR, st.insB, st.insR, st.skp, st.idx,
             save_checkpoint c' st.s, some c'⟩
        | none => ⟨st.insR, st.insB, st.insR, st.skp, st.idx, st.s, none⟩

/-- The result of the orchestrator's try-body. -/
structure MainOut where
  papers : LoadOut
  datasets : LoadOut
  links : LoadOut
  evalOut : LoadOut
  s : SysState
deriving Repr

/-- The try-body of `main` in resume mode (lines 521-544): read the
checkpoint, run the four loaders in dependency order threading the shared
checkpoint dictionary and world state, then clear the checkpoint file. -/
def mainBody (s0 : SysState) (batch_size : Nat) : MainOut :=
  let ckpt := load_checkpoint s0.file
  let o1 := load_papers s0 batch_size (some ckpt)
  let o2 := load_datasets o1.s batch_size o1.ckpt
  let o3 := load_code_links o2.s batch_size o2.ckpt
  let o4 := load_evaluation_tables o3.s batch_size o3.ckpt
  ⟨o1, o2, o3, o4, clear_checkpoint o4.s⟩

/-- How a run of `main` ends: the try-body completes, or a
`KeyboardInterrupt` / unexpected `Exception` escapes it. -/
inductive RunOutcome where
  | completed
  | interrupted
  | errored
deriving DecidableEq, Repr

/-- The observable result of the `main` process: final world state, process
exit code, and whether the resume notice was printed. -/
structure MainResult where
  s : SysState
  exit_code : Nat
  resume_notice : Bool
deriving Repr

/-- Model of the try/except of `main` (lines 521-553) followed by process exit.  On
success the body runs to the end (which clears the checkpoint).  On
`KeyboardInterrupt` or any `Exception`, the handler prints a resume notice
and performs no checkpoint operation on `sAt`, the world state the
interrupted body left behind; `main` then returns normally, so the Python
process exits with code 0 in every case (the script never calls
`sys.exit`). -/
def pyMain (s0 : SysState) (batch_size : Nat) (o : RunOutcome)
    (sAt : SysState) : MainResult :=
  match o with
  | .completed => ⟨(mainBody s0 batch_size).s, 0, false⟩
  | .interrupted => ⟨sAt, 0, true⟩
  | .errored => ⟨sAt, 0, true⟩

theorem papersFold_count (rows : List PaperRow) :
    ∀ a : Nat × Nat × DB,
      (rows.foldl papersStepF a).1 + (rows.foldl papersStepF a).2.1
        = a.1 + a.2.1 + rows.length := by
  induction rows with
  | nil => intro a; simp
  | cons r rs ih =>
      intro a
      rw [List.foldl_cons, ih]
      rcases h : processPaperRow a.2.2 r with ⟨b, db'⟩
      cases b <;> simp [papersStepF, h] <;> omega

theorem processPapersBatch_count (db : DB) (rows : List PaperRow) :
    (processPapersBatch db rows).1 + (processPapersBatch db rows).2.1
      = rows.length := by
  have := papersFold_count rows (0, 0, db)
  simpa [processPapersBatch] using this

theorem datasetsFold_count (rows : List DatasetRow) :
    ∀ a : Nat × Nat × DB,
      (rows.foldl datasetsStepF a).1 + (rows.foldl datasetsStepF a).2.1
        = a.1 + a.2.1 + rows.length := by
  induction rows with
  | nil => intro a; simp
  | cons r rs ih =>
      intro a
      rw [List.foldl_cons, ih]
      rcases h : processDatasetRow a.2.2 r with ⟨b, db'⟩
      cases b <;> simp [datasetsStepF, h] <;> omega

theorem processDatasetsBatch_count (db : DB) (rows : List DatasetRow) :
    (processDatasetsBatch db rows).1 + (processDatasetsBatch db rows).2.1
      = rows.length := by
  have := datasetsFold_count rows (0, 0, db)
  simpa [processDatasetsBatch] using this

theorem linksFold_count (rows : List LinkRow) :
    ∀ a : Nat × Nat × DB,
      (rows.foldl linksStepF a).1 + (rows.foldl linksStepF a).2.1
        = a.1 + a.2.1 + rows.length := by
  induction rows with
  | nil => intro a; simp
  | cons r rs ih =>
      intro a
      rw [List.foldl_cons, ih]
      rcases h : processLinkRow a.2.2 r with ⟨b, db'⟩
      cases b <;> simp [linksStepF, h] <;> omega

theorem processLinksBatch_count (db : DB) (rows : List LinkRow) :
    (processLinksBatch db rows).1 + (processLinksBatch db rows).2.1
      = rows.length := by
  have := linksFold_count rows (0, 0, db)
  simpa [processLinksBatch] using this

theorem processEvalRow_oneOf (db : DB) (row : EvalRow) :
    (processEvalRow db row).skp + (processEvalRow db row).insB = 1 := by
  rcases row with ⟨d, t, p, m, v⟩
  cases d <;> cases t <;> simp [processEvalRow]
  split <;> [skip; rfl]
  split <;> rfl

theorem evalFold_count (rows : List EvalRow) :
    ∀ a : EvalStep,
      (rows.foldl evalStepF a).skp + (rows.foldl evalStepF a).insB
        = a.skp + a.insB + rows.length := by
  induction rows with
  | nil => intro a; simp
  | cons r rs ih =>
      intro a
      rw [List.foldl_cons, ih]
      have h := processEvalRow_oneOf a.db r
      simp [evalStepF]
      omega

theorem processEvalBatch_count (db : DB) (rows : List EvalRow) :
    (processEvalBatch db rows).skp + (processEvalBatch db rows).insB
      = rows.length := by
  have := evalFold_count rows ⟨0, 0, 0, db⟩
  simpa [processEvalBatch] using this

theorem loopIdx_eq (step len k : Nat) (hbs : 0 < step) :
    loopIdx step k len = List.range' k (len - k) := by
  by_cases hk : k < len
  · have ih := loopIdx_eq step len (k + step) hbs
    rw [loopIdx, batchStarts_pos hk hbs, List.flatMap_cons]
    rw [loopIdx] at ih
    rw [ih]
    by_cases h2 : k + step < len
    · have hmin : min step (len - k) = step := by omega
      rw [sliceIdx, hmin, List.range'_append_1]
      congr 1
      omega
    · have hmin : min step (len - k) = len - k := by omega
      have h0 : len - (k + step) = 0 := by omega
      rw [sliceIdx, hmin, h0]
      simp
  · rw [loopIdx, batchStarts_stop (by omega)]
    have h0 : len - k = 0 := by omega
    simp [h0]
termination_by len - k
decreasing_by omega

theorem loadPapersGo_idx (df : List PaperRow) (batch_size : Nat)
    (starts : List Nat) :
    ∀ st : LoopSt,
      (loadPapersGo df batch_size starts st).idx
        = st.idx ++ starts.flatMap (fun i => sliceIdx batch_size i df.length) := by
  induction starts with
  | nil => intro st; simp [loadPapersGo]
  | cons i rest ih =>
      intro st
      rw [loadPapersGo, ih]
      cases hck : st.ck <;> simp [List.flatMap_cons]

/-- C1: a resumed papers run whose checkpoint holds `papers_offset = k` and
`papers_complete = false` iterates exactly the source row indices `k, k+1,
..., len-1`, in order, and never an index below `k`. -/
theorem c1_resume_papers_suffix (df : List PaperRow) (batch_size k : Nat)
    (hbs : 0 < batch_size)
    (x2 x3 x4 : Nat) (b2 b3 b4 : Bool) (file0 : Option Checkpoint)
    (saves0 : List Checkpoint) (db : DB)
    (sD : Option (List DatasetRow)) (sL : Option (List LinkRow))
    (sE : Option (List EvalRow)) :
    (load_papers ⟨file0, saves0, db, some df, sD, sL, sE⟩ batch_size
        (some ⟨k, x2, x3, x4, false, b2, b3, b4⟩)).procIdx
      = List.range' k (df.length - k)
    ∧ ∀ j ∈ (load_papers ⟨file0, saves0, db, some df, sD, sL, sE⟩ batch_size
        (some ⟨k, x2, x3, x4, false, b2, b3, b4⟩)).procIdx, k ≤ j := by
  have hmain : (load_papers ⟨file0, saves0, db, some df, sD, sL, sE⟩ batch_size
        (some ⟨k, x2, x3, x4, false, b2, b3, b4⟩)).procIdx
      = List.range' k (df.length - k) := by
    have hidx := loadPapersGo_idx df batch_size
      (batchStarts batch_size k df.length)
      ⟨0, 0, [], ⟨file0, saves0, db, some df, sD, sL, sE⟩,
        some ⟨k, x2, x3, x4, false, b2, b3, b4⟩⟩
    have hloop := loopIdx_eq batch_size df.length k hbs
    rw [loopIdx] at hloop
    rw [load_papers]
    simp only [Option.map_some, Option.getD_some]
    cases hck : (loadPapersGo df batch_size
        (batchStarts batch_size k df.length)
        ⟨0, 0, [], ⟨file0, saves0, db, some df, sD, sL, sE⟩,
          some ⟨k, x2, x3, x4, false, b2, b3, b4⟩⟩).ck <;>
      simp [hck, hidx, hloop]
  refine ⟨hmain, ?_⟩
  intro j hj
  rw [hmain] at hj
  have := List.mem_range'_1.mp hj
  omega

/-- A destination holding one paper (arXiv id "pp") and one dataset ("d0"),
used to exercise the evaluation loader's counters. -/
def dbEvalSample : DB :=
  ⟨[⟨1, some "T", none, some "pp", none, none, none, none⟩],
   [⟨2, some "d0", none, none, none, none⟩],
   [], [], [], 3⟩

/-- An evaluation row with dataset and task but no paper/metric: it is not
skipped, yet inserts no benchmark result. -/
def rowBenchOnly : EvalRow := ⟨some "d0", some "t0", none, none, none⟩

/-- An evaluation row that yields both a benchmark and a result. -/
def rowFullEval : EvalRow :=
  ⟨some "d0", some "t0", some "pp", some "m", some (.numeric 5)⟩

/-- C2 counterexample: in the evaluation stream the skip accounting fails.
For a one-row batch whose row carries a dataset and task but no paper, the
loader's inserted-results count (its returned count of inserted rows) plus
its skipped count is 0, not the batch length 1; and counting both
evaluation insert counters together overshoots: the same one-row batch with
a full row yields inserted_benchmarks + inserted_results + skipped = 2 ≠ 1. -/
theorem c2_skip_accounting_cex :
    ((processEvalBatch DB.empty [rowBenchOnly]).insR
        + (processEvalBatch DB.empty [rowBenchOnly]).skp
      ≠ ([rowBenchOnly] : List EvalRow).length)
    ∧ ((processEvalBatch dbEvalSample [rowFullEval]).insB
        + (processEvalBatch dbEvalSample [rowFullEval]).insR
        + (processEvalBatch dbEvalSample [rowFullEval]).skp
      ≠ ([rowFullEval] : List EvalRow).length) := by
  decide

/-- C2 amended: for every batch of the papers, datasets and code-links
streams, inserted + skipped equals the number of rows in the batch; for the
evaluation stream the partition holds with the `inserted_benchmarks`
counter (every row is either skipped or counted there), while
`inserted_results` + skipped can fall short of the batch length. -/
theorem c2_skip_accounting_amended :
    (∀ (db : DB) (rows : List PaperRow),
        (processPapersBatch db rows).1 + (processPapersBatch db rows).2.1
          = rows.length)
    ∧ (∀ (db : DB) (rows : List DatasetRow),
        (processDatasetsBatch db rows).1 + (processDatasetsBatch db rows).2.1
          = rows.length)
    ∧ (∀ (db : DB) (rows : List LinkRow),
        (processLinksBatch db rows).1 + (processLinksBatch db rows).2.1
          = rows.length)
    ∧ (∀ (db : DB) (rows : List EvalRow),
        (processEvalBatch db rows).insB + (processEvalBatch db rows).skp
          = rows.length) :=
  ⟨processPapersBatch_count, processDatasetsBatch_count,
   processLinksBatch_count, fun db rows => by
      have := processEvalBatch_count db rows
      omega⟩

theorem load_papers_done (s : SysState) (batch_size : Nat) (c : Checkpoint)
    (h : c.papers_complete = true) :
    load_papers s batch_size (some c) = ⟨0, 0, 0, 0, [], s, some c⟩ := by
  cases hs : s.papersSrc with
  | none => simp [load_papers, hs]
  | some df => simp [load_papers, hs, h]

theorem load_datasets_done (s : SysState) (batch_size : Nat) (c : Checkpoint)
    (h : c.datasets_complete = true) :
    load_datasets s batch_size (some c) = ⟨0, 0, 0, 0, [], s, some c⟩ := by
  cases hs : s.datasetsSrc with
  | none => simp [load_datasets, hs]
  | some df => simp [load_datasets, hs, h]

theorem load_code_links_done (s : SysState) (batch_size : Nat) (c : Checkpoint)
    (h : c.links_complete = true) :
    load_code_links s batch_size (some c) = ⟨0, 0, 0, 0, [], s, some c⟩ := by
  cases hs : s.linksSrc with
  | none => simp [load_code_links, hs]
  | some df => simp [load_code_links, hs, h]

theorem load_evaluation_tables_done (s : SysState) (batch_size : Nat)
    (c : Checkpoint) (h : c.eval_complete = true) :
    load_evaluation_tables s batch_size (some c)
      = ⟨0, 0, 0, 0, [], s, some c⟩ := by
  cases hs : s.evalSrc with
  | none => simp [load_evaluation_tables, hs]
  | some df => simp [load_evaluation_tables, hs, h]

/-- C3: a run whose checkpoint marks all four streams complete performs zero
work (every loader iterates no source row, returns 0 and leaves the
database untouched) and ends with the orchestrator having cleared the
checkpoint, so the checkpoint file no longer exists. -/
theorem c3_terminal_checkpoint (s0 : SysState) (batch_size : Nat)
    (c : Checkpoint) (hf : s0.file = some c)
    (hp : c.papers_complete = true) (hd : c.datasets_complete = true)
    (hl : c.links_complete = true) (he : c.eval_complete = true) :
    (mainBody s0 batch_size).papers.procIdx = []
    ∧ (mainBody s0 batch_size).datasets.procIdx = []
    ∧ (mainBody s0 batch_size).links.procIdx = []
    ∧ (mainBody s0 batch_size).evalOut.procIdx = []
    ∧ (mainBody s0 batch_size).papers.ret = 0
    ∧ (mainBody s0 batch_size).datasets.ret = 0
    ∧ (mainBody s0 batch_size).links.ret = 0
    ∧ (mainBody s0 batch_size).evalOut.ret = 0
    ∧ (mainBody s0 batch_size).s.db = s0.db
    ∧ (mainBody s0 batch_size).s.file = none := by
  have h1 := load_papers_done s0 batch_size c hp
  have h2 := load_datasets_done s0 batch_size c hd
  have h3 := load_code_links_done s0 batch_size c hl
  have h4 := load_evaluation_tables_done s0 batch_size c he
  simp [mainBody, load_checkpoint, hf, h1, h2, h3, h4, clear_checkpoint]

/-- All-complete checkpoint for the C3 witness. -/
def ckptAllDone : Checkpoint := ⟨0, 0, 0, 0, true, true, true, true⟩

/-- World state for the C3 witness. -/
def sysAllDone : SysState :=
  ⟨some ckptAllDone, [], DB.empty, some [], none, none, none⟩

theorem c3_terminal_checkpoint_witness :
    sysAllDone.file = some ckptAllDone
    ∧ ((mainBody sysAllDone 1000).papers.procIdx = []
      ∧ (mainBody sysAllDone 1000).datasets.procIdx = []
      ∧ (mainBody sysAllDone 1000).links.procIdx = []
      ∧ (mainBody sysAllDone 1000).evalOut.procIdx = []
      ∧ (mainBody sysAllDone 1000).papers.ret = 0
      ∧ (mainBody sysAllDone 1000).datasets.ret = 0
      ∧ (mainBody sysAllDone 1000).links.ret = 0
      ∧ (mainBody sysAllDone 1000).evalOut.ret = 0
      ∧ (mainBody sysAllDone 1000).s.db = sysAllDone.db
      ∧ (mainBody sysAllDone 1000).s.file = none) :=
  ⟨rfl, c3_terminal_checkpoint sysAllDone 1000 ckptAllDone rfl rfl rfl rfl rfl⟩

/-- The spec's three-row papers scenario: a keyed row, a row without an
arXiv id, and a duplicate of the first key. -/
def df3 : List PaperRow :=
  [⟨some "a1", some "P1", none, none, none, none, none⟩,
   ⟨none, some "P2", none, none, none, none, none⟩,
   ⟨some "a1", some "P1-dup", none, none, none, none, none⟩]

theorem c1_resume_papers_suffix_witness :
    0 < 1
    ∧ ((load_papers ⟨none, [], DB.empty, some df3, none, none, none⟩ 1
          (some ⟨1, 0, 0, 0, false, false, false, false⟩)).procIdx
        = List.range' 1 (df3.length - 1)
      ∧ ∀ j ∈ (load_papers ⟨none, [], DB.empty, some df3, none, none, none⟩ 1
          (some ⟨1, 0, 0, 0, false, false, false, false⟩)).procIdx, 1 ≤ j) :=
  ⟨by decide,
   c1_resume_papers_suffix df3 1 1 (by decide) 0 0 0 false false false
     none [] DB.empty none none none⟩

/-- C9: a loader whose source parquet file does not exist returns 0 without
touching the world state or the checkpoint dictionary (no offset advanced,
no complete flag set), for each of the four loaders; and the orchestrator's
try-body nevertheless runs to its end and deletes the checkpoint file. -/
theorem c9_missing_source (s : SysState) (batch_size : Nat)
    (ck : Option Checkpoint) (s0 : SysState) (bs0 : Nat) :
    (s.papersSrc = none →
      load_papers s batch_size ck = ⟨0, 0, 0, 0, [], s, ck⟩)
    ∧ (s.datasetsSrc = none →
      load_datasets s batch_size ck = ⟨0, 0, 0, 0, [], s, ck⟩)
    ∧ (s.linksSrc = none →
      load_code_links s batch_size ck = ⟨0, 0, 0, 0, [], s, ck⟩)
    ∧ (s.evalSrc = none →
      load_evaluation_tables s batch_size ck = ⟨0, 0, 0, 0, [], s, ck⟩)
    ∧ (mainBody s0 bs0).s.file = none := by
  refine ⟨?_, ?_, ?_, ?_, rfl⟩ <;> intro h <;>
    simp [load_papers, load_datasets, load_code_links,
      load_evaluation_tables, h]

/-- World state with no source files at all, for the C9 witness. -/
def sysNoSrc : SysState := ⟨some freshCheckpoint, [], DB.empty, none, none, none, none⟩

theorem c9_missing_source_witness :
    load_papers sysNoSrc 5 none = ⟨0, 0, 0, 0, [], sysNoSrc, none⟩
    ∧ load_datasets sysNoSrc 5 none = ⟨0, 0, 0, 0, [], sysNoSrc, none⟩
    ∧ load_code_links sysNoSrc 5 none = ⟨0, 0, 0, 0, [], sysNoSrc, none⟩
    ∧ load_evaluation_tables sysNoSrc 5 none = ⟨0, 0, 0, 0, [], sysNoSrc, none⟩
    ∧ (mainBody sysNoSrc 5).s.file = none :=
  ⟨(c9_missing_source sysNoSrc 5 none sysNoSrc 5).1 rfl,
   (c9_missing_source sysNoSrc 5 none sysNoSrc 5).2.1 rfl,
   (c9_missing_source sysNoSrc 5 none sysNoSrc 5).2.2.1 rfl,
   (c9_missing_source sysNoSrc 5 none sysNoSrc 5).2.2.2.1 rfl,
   (c9_missing_source sysNoSrc 5 none sysNoSrc 5).2.2.2.2⟩

/-- Every stored paper carries a non-null arXiv natural key. -/
def PapersKeyed (db : DB) : Prop :=
  ∀ p ∈ db.papers, p.arxiv_id ≠ none

theorem processPaperRow_keyed (db : DB) (row : PaperRow)
    (h : PapersKeyed db) : PapersKeyed (processPaperRow db row).2 := by
  cases harx : row.arxiv_id with
  | none => simpa [processPaperRow, harx] using h
  | some a =>
      by_cases hc : db.papers.any (fun p => p.arxiv_id = some a)
      · simpa [processPaperRow, harx, insertPaper, hc] using h
      · intro p hp
        simp only [processPaperRow, harx, insertPaper, hc, if_false] at hp
        rcases List.mem_append.mp hp with h1 | h2
        · exact h p h1
        · rcases List.mem_singleton.mp h2 with rfl
          simp

theorem papersFold_keyed (rows : List PaperRow) :
    ∀ a : Nat × Nat × DB, PapersKeyed a.2.2 →
      PapersKeyed (rows.foldl papersStepF a).2.2 := by
  induction rows with
  | nil => intro a h; simpa using h
  | cons r rs ih =>
      intro a h
      rw [List.foldl_cons]
      apply ih
      have hk := processPaperRow_keyed a.2.2 r h
      rcases hrow : processPaperRow a.2.2 r with ⟨b, db'⟩
      rw [hrow] at hk
      cases b <;> simpa [papersStepF, hrow] using hk

/-- C6: a papers row without an arXiv id is never inserted (the database is
unchanged) and is counted as skipped; consequently a database in which all
papers carry a non-null arXiv id keeps that invariant across any batch. -/
theorem c6_missing_key_skipped :
    (∀ (db : DB) (row : PaperRow), row.arxiv_id = none →
        processPaperRow db row = (false, db))
    ∧ (∀ (db : DB) (row : PaperRow), row.arxiv_id = none →
        processPapersBatch db [row] = (0, 1, db))
    ∧ (∀ (db : DB) (rows : List PaperRow), PapersKeyed db →
        PapersKeyed (processPapersBatch db rows).2.2) := by
  refine ⟨?_, ?_, ?_⟩
  · intro db row h
    simp [processPaperRow, h]
  · intro db row h
    simp [processPapersBatch, papersStepF, processPaperRow, h]
  · intro db rows h
    exact papersFold_keyed rows (0, 0, db) h

theorem c6_missing_key_skipped_witness :
    ((⟨none, some "P2", none, none, none, none, none⟩ : PaperRow).arxiv_id = none
      ∧ processPaperRow DB.empty ⟨none, some "P2", none, none, none, none, none⟩
          = (false, DB.empty))
    ∧ processPapersBatch DB.empty [⟨none, some "P2", none, none, none, none, none⟩]
        = (0, 1, DB.empty)
    ∧ (PapersKeyed DB.empty
      ∧ PapersKeyed (processPapersBatch DB.empty df3).2.2) :=
  ⟨⟨rfl, c6_missing_key_skipped.1 DB.empty _ rfl⟩,
   c6_missing_key_skipped.2.1 DB.empty _ rfl,
   by simp [PapersKeyed, DB.empty],
   c6_missing_key_skipped.2.2 DB.empty df3 (by simp [PapersKeyed, DB.empty])⟩

/-- Every stored implementation references an existing paper row (no null or
dangling `paper_id`). -/
def ImplsValid (db : DB) : Prop :=
  ∀ impl ∈ db.implementations, ∃ p ∈ db.papers, some p.id = impl.paper_id

theorem lookupPaperId_mem {db : DB} {a : String} {pid : Nat}
    (h : lookupPaperId db a = some pid) : ∃ p ∈ db.papers, p.id = pid := by
  rcases Option.map_eq_some'.mp h with ⟨p, hfind, hid⟩
  exact ⟨p, List.mem_of_find?_eq_some hfind, hid⟩

theorem processLinkRow_valid (db : DB) (row : LinkRow)
    (h : ImplsValid db) : ImplsValid (processLinkRow db row).2 := by
  cases harx : row.paper_arxiv_id with
  | none => simpa [processLinkRow, harx] using h
  | some a =>
      by_cases hurl : pyTruthyStr row.repo_url
      · cases hlook : lookupPaperId db a with
        | none => simpa [processLinkRow, harx, hurl, hlook] using h
        | some pid =>
            intro impl himpl
            rcases lookupPaperId_mem hlook with ⟨p, hpmem, hpid⟩
            simp [processLinkRow, harx, hurl, hlook, insertImplementation]
              at himpl ⊢
            rcases himpl with hold | rfl
            · exact h impl hold
            · exact ⟨p, hpmem, by simp [hpid]⟩
      · simpa [processLinkRow, harx, hurl] using h

theorem linksFold_valid (rows : List LinkRow) :
    ∀ a : Nat × Nat × DB, ImplsValid a.2.2 →
      ImplsValid (rows.foldl linksStepF a).2.2 := by
  induction rows with
  | nil => intro a h; simpa using h
  | cons r rs ih =>
      intro a h
      rw [List.foldl_cons]
      apply ih
      have hk := processLinkRow_valid a.2.2 r h
      rcases hrow : processLinkRow a.2.2 r with ⟨b, db'⟩
      rw [hrow] at hk
      cases b <;> simpa [linksStepF, hrow] using hk

/-- C4: a code-link row whose arXiv key does not resolve to a stored paper
is skipped with the database unchanged (never inserted with a null or
invalid paper reference), and processing any batch of link rows preserves
the invariant that every implementation references an existing paper. -/
theorem c4_dangling_link_skipped :
    (∀ (db : DB) (row : LinkRow) (a : String),
        row.paper_arxiv_id = some a → pyTruthyStr row.repo_url = true →
        lookupPaperId db a = none → processLinkRow db row = (false, db))
    ∧ (∀ (db : DB) (row : LinkRow) (a : String),
        row.paper_arxiv_id = some a → pyTruthyStr row.repo_url = true →
        lookupPaperId db a = none → processLinksBatch db [row] = (0, 1, db))
    ∧ (∀ (db : DB) (rows : List LinkRow), ImplsValid db →
        ImplsValid (processLinksBatch db rows).2.2) := by
  refine ⟨?_, ?_, ?_⟩
  · intro db row a ha hurl hlook
    simp [processLinkRow, ha, hurl, hlook]
  · intro db row a ha hurl hlook
    simp [processLinksBatch, linksStepF, processLinkRow, ha, hurl, hlook]
  · intro db rows h
    exact linksFold_valid rows (0, 0, db) h

/-- A link row referencing a paper that is absent from the destination. -/
def rowDangling : LinkRow := ⟨some "zz", some "http://x", none, none⟩

theorem c4_dangling_link_skipped_witness :
    (rowDangling.paper_arxiv_id = some "zz"
      ∧ pyTruthyStr rowDangling.repo_url = true
      ∧ lookupPaperId DB.empty "zz" = none
      ∧ processLinkRow DB.empty rowDangling = (false, DB.empty))
    ∧ processLinksBatch DB.empty [rowDangling] = (0, 1, DB.empty)
    ∧ (ImplsValid DB.empty
      ∧ ImplsValid (processLinksBatch DB.empty [rowDangling]).2.2) :=
  ⟨⟨rfl, rfl, rfl,
    c4_dangling_link_skipped.1 DB.empty rowDangling "zz" rfl rfl rfl⟩,
   c4_dangling_link_skipped.2.1 DB.empty rowDangling "zz" rfl rfl rfl,
   by simp [ImplsValid, DB.empty],
   c4_dangling_link_skipped.2.2 DB.empty [rowDangling]
     (by simp [ImplsValid, DB.empty])⟩

theorem benchConflict_nullds (name : String) (b : BenchRec) :
    benchConflict name none b = false := by
  cases hb : b.dataset_id <;> simp [benchConflict, hb]

theorem insertBenchmarkResult_frame (db : DB) (pid bid : Nat) (m : String)
    (v : Int) :
    (insertBenchmarkResult db pid bid m v).2.benchmarks = db.benchmarks
    ∧ (insertBenchmarkResult db pid bid m v).2.papers = db.papers
    ∧ (insertBenchmarkResult db pid bid m v).2.datasets = db.datasets := by
  rw [insertBenchmarkResult]
  split <;> exact ⟨rfl, rfl, rfl⟩

theorem processEvalRow_counts (db : DB) (row : EvalRow) (d t : String)
    (hd : row.dataset = some d) (ht : row.task = some t) :
    (processEvalRow db row).skp = 0 ∧ (processEvalRow db row).insB = 1 := by
  simp only [processEvalRow, hd, ht]
  constructor <;> (split; · split <;> rfl
                   · rfl)

theorem processEvalRow_benchmarks_nullds (db : DB) (row : EvalRow)
    (d t : String) (hd : row.dataset = some d) (ht : row.task = some t)
    (hlook : lookupDatasetId db d = none) :
    (processEvalRow db row).db.benchmarks
      = db.benchmarks ++ [⟨db.nextId, d ++ " - " ++ t, none, t⟩] := by
  have hfind : db.benchmarks.find? (benchConflict (d ++ " - " ++ t) none)
      = none :=
    List.find?_eq_none.mpr
      (fun b _ => by simp [benchConflict_nullds])
  simp only [processEvalRow, hd, ht, hlook, upsertBenchmark, hfind]
  split
  · split
    · exact (insertBenchmarkResult_frame _ _ _ _ _).1
    · rfl
  · rfl

/-- C10: an evaluation row whose dataset name is absent from the destination
datasets table is not skipped: a benchmarks row with a null dataset
reference is appended, and the inserted-benchmarks counter is incremented;
moreover that counter is incremented for every row with a dataset and task,
even when the benchmark upsert hit an existing row instead of inserting. -/
theorem c10_null_dataset_benchmark :
    (∀ (db : DB) (row : EvalRow) (d t : String),
        row.dataset = some d → row.task = some t →
        lookupDatasetId db d = none →
        (processEvalRow db row).skp = 0
        ∧ (processEvalRow db row).insB = 1
        ∧ (processEvalRow db row).db.benchmarks
            = db.benchmarks ++ [⟨db.nextId, d ++ " - " ++ t, none, t⟩])
    ∧ (∀ (db : DB) (row : EvalRow) (d t : String),
        row.dataset = some d → row.task = some t →
        (processEvalRow db row).insB = 1) := by
  constructor
  · intro db row d t hd ht hlook
    rcases processEvalRow_counts db row d t hd ht with ⟨h1, h2⟩
    exact ⟨h1, h2, processEvalRow_benchmarks_nullds db row d t hd ht hlook⟩
  · intro db row d t hd ht
    exact (processEvalRow_counts db row d t hd ht).2

/-- A database already holding the benchmark "d1 - t1" (with a non-null
dataset reference), so a further upsert of that key hits an existing row. -/
def dbBenchHit : DB :=
  ⟨[], [⟨2, some "d1", none, none, none, none⟩], [],
   [⟨5, "d1 - t1", some 2, "t1"⟩], [], 6⟩

theorem c10_null_dataset_benchmark_witness :
    (rowBenchOnly.dataset = some "d0" ∧ rowBenchOnly.task = some "t0"
      ∧ lookupDatasetId DB.empty "d0" = none
      ∧ ((processEvalRow DB.empty rowBenchOnly).skp = 0
        ∧ (processEvalRow DB.empty rowBenchOnly).insB = 1
        ∧ (processEvalRow DB.empty rowBenchOnly).db.benchmarks
            = DB.empty.benchmarks ++ [⟨DB.empty.nextId, "d0" ++ " - " ++ "t0",
                none, "t0"⟩]))
    ∧ (processEvalRow dbBenchHit ⟨some "d1", some "t1", none, none, none⟩).insB
        = 1 :=
  ⟨⟨rfl, rfl, rfl,
    c10_null_dataset_benchmark.1 DB.empty rowBenchOnly "d0" "t0" rfl rfl rfl⟩,
   c10_null_dataset_benchmark.2 dbBenchHit
     ⟨some "d1", some "t1", none, none, none⟩ "d1" "t1" rfl rfl⟩

/-- C8: on a key conflict the benchmarks upsert updates only the matched
row's task in place (same id, name and dataset reference, no new row, other
tables untouched), while a conflicting benchmark-results insert leaves the
database entirely unchanged — a stored metric_value is never overwritten. -/
theorem c8_conflict_asymmetry :
    (∀ (db : DB) (name task : String) (dsId : Option Nat) (b : BenchRec),
        db.benchmarks.find? (benchConflict name dsId) = some b →
        (upsertBenchmark db name dsId task).1 = b.id
        ∧ (upsertBenchmark db name dsId task).2.benchmarks
            = db.benchmarks.map
                (fun r => if r.id = b.id then { r with task := task } else r)
        ∧ (upsertBenchmark db name dsId task).2.benchmark_results
            = db.benchmark_results
        ∧ (upsertBenchmark db name dsId task).2.benchmarks.length
            = db.benchmarks.length
        ∧ ∀ r ∈ (upsertBenchmark db name dsId task).2.benchmarks,
            ∃ r0 ∈ db.benchmarks, r.id = r0.id ∧ r.name = r0.name
              ∧ r.dataset_id = r0.dataset_id)
    ∧ (∀ (db : DB) (pid bid : Nat) (m : String) (v : Int),
        db.benchmark_results.any (resultConflict pid bid m) = true →
        insertBenchmarkResult db pid bid m v = (none, db)) := by
  constructor
  · intro db name task dsId b hfind
    simp only [upsertBenchmark, hfind]
    refine ⟨trivial, trivial, trivial, by simp, ?_⟩
    intro r hr
    rcases List.mem_map.mp hr with ⟨r0, hr0, rfl⟩
    by_cases hid : r0.id = b.id
    · exact ⟨r0, hr0, by simp [hid], by simp [hid], by simp [hid]⟩
    · exact ⟨r0, hr0, by simp [hid], by simp [hid], by simp [hid]⟩
  · intro db pid bid m v hany
    simp [insertBenchmarkResult, hany]

/-- A database holding one benchmark and one benchmark result, to exercise
both conflict paths. -/
def dbConflict : DB :=
  ⟨[], [], [], [⟨5, "n", some 2, "t0"⟩], [⟨7, 1, 5, "m", 3⟩], 8⟩

theorem c8_conflict_asymmetry_witness :
    (dbConflict.benchmarks.find? (benchConflict "n" (some 2))
        = some ⟨5, "n", some 2, "t0"⟩
      ∧ ((upsertBenchmark dbConflict "n" (some 2) "t1").1 = 5
        ∧ (upsertBenchmark dbConflict "n" (some 2) "t1").2.benchmarks
            = dbConflict.benchmarks.map
                (fun r => if r.id = 5 then { r with task := "t1" } else r)
        ∧ (upsertBenchmark dbConflict "n" (some 2) "t1").2.benchmark_results
            = dbConflict.benchmark_results
        ∧ (upsertBenchmark dbConflict "n" (some 2) "t1").2.benchmarks.length
            = dbConflict.benchmarks.length
        ∧ ∀ r ∈ (upsertBenchmark dbConflict "n" (some 2) "t1").2.benchmarks,
            ∃ r0 ∈ dbConflict.benchmarks, r.id = r0.id ∧ r.name = r0.name
              ∧ r.dataset_id = r0.dataset_id))
    ∧ (dbConflict.benchmark_results.any (resultConflict 1 5 "m") = true
      ∧ insertBenchmarkResult dbConflict 1 5 "m" 99 = (none, dbConflict)) :=
  ⟨⟨by decide,
    c8_conflict_asymmetry.1 dbConflict "n" "t1" (some 2)
      ⟨5, "n", some 2, "t0"⟩ (by decide)⟩,
   by decide,
   c8_conflict_asymmetry.2 dbConflict 1 5 "m" 99 (by decide)⟩

/-- A world state frozen at the moment of an interruption, its checkpoint
file holding the last save. -/
def sysAtStop : SysState :=
  ⟨some freshCheckpoint, [freshCheckpoint], DB.empty, none, none, none, none⟩

/-- C7 counterexample: on a user interruption the handler prints the resume
notice and preserves the checkpoint file, but the process exits with code
0 — the `except` blocks swallow the exception and `main` returns normally,
so the exit code is not non-zero as claimed. -/
theorem c7_nonzero_exit_cex :
    (pyMain sysAtStop 1000 .interrupted sysAtStop).resume_notice = true
    ∧ (pyMain sysAtStop 1000 .interrupted sysAtStop).s.file
        = some freshCheckpoint
    ∧ (pyMain sysAtStop 1000 .interrupted sysAtStop).exit_code = 0 := by
  decide

/-- C7 amended: on an interruption or an unexpected top-level exception the
process prints a resume notice and preserves the last saved checkpoint
file, but exits with code 0 (not non-zero): no `sys.exit` is ever called. -/
theorem c7_interruption_amended (s0 : SysState) (batch_size : Nat)
    (o : RunOutcome) (sAt : SysState) (h : o ≠ .completed) :
    (pyMain s0 batch_size o sAt).resume_notice = true
    ∧ (pyMain s0 batch_size o sAt).s.file = sAt.file
    ∧ (pyMain s0 batch_size o sAt).exit_code = 0 := by
  cases o with
  | completed => exact absurd rfl h
  | interrupted => exact ⟨rfl, rfl, rfl⟩
  | errored => exact ⟨rfl, rfl, rfl⟩

theorem c7_interruption_amended_witness :
    (RunOutcome.errored ≠ RunOutcome.completed)
    ∧ ((pyMain sysAtStop 1000 .errored sysAtStop).resume_notice = true
      ∧ (pyMain sysAtStop 1000 .errored sysAtStop).s.file = sysAtStop.file
      ∧ (pyMain sysAtStop 1000 .errored sysAtStop).exit_code = 0) :=
  ⟨by decide, c7_interruption_amended sysAtStop 1000 .errored sysAtStop
    (by decide)⟩

/-- The last element of a list, or a fallback when the list is empty: the
checkpoint value left in the shared dictionary after a run of saves. -/
def lastOrD {α : Type} (d : α) : List α → α
  | [] => d
  | a :: l => lastOrD a l

theorem loadPapersGo_trace (df : List PaperRow) (batch_size : Nat) :
    ∀ (starts : List Nat) (ins skp : Nat) (idx : List Nat) (s : SysState)
      (c : Checkpoint),
      (loadPapersGo df batch_size starts ⟨ins, skp, idx, s, some c⟩).s.saves
          = s.saves ++ (starts.map
              (fun i => { c with papers_offset := i + batch_size }))
      ∧ (loadPapersGo df batch_size starts ⟨ins, skp, idx, s, some c⟩).ck
          = some (lastOrD c (starts.map
              (fun i => { c with papers_offset := i + batch_size }))) := by
  intro starts
  induction starts with
  | nil => intro ins skp idx s c; simp [loadPapersGo, lastOrD]
  | cons i rest ih =>
      intro ins skp idx s c
      rw [loadPapersGo]
      constructor
      · refine Eq.trans (ih _ _ _ _ _).1 ?_
        simp [save_checkpoint]
      · refine Eq.trans (ih _ _ _ _ _).2 ?_
        rfl

/-- The checkpoints persisted by the batch loop of `load_papers` starting at
offset `k`: one per batch start `i`, holding `papers_offset = i +
batch_size` (lines 150-153; the stored offset is not capped at the source
length). -/
def papersBatchSaves (c : Checkpoint) (batch_size k len : Nat) :
    List Checkpoint :=
  (batchStarts batch_size k len).map
    (fun i => { c with papers_offset := i + batch_size })

theorem load_papers_df3_eval :
    load_papers ⟨none, [], DB.empty, some df3, none, none, none⟩ 1000
        (some freshCheckpoint)
      = ⟨1, 1, 0, 2, [0, 1, 2],
         ⟨some ⟨1000, 0, 0, 0, true, false, false, false⟩,
          [⟨1000, 0, 0, 0, false, false, false, false⟩,
           ⟨1000, 0, 0, 0, true, false, false, false⟩],
          ⟨[⟨1, some "P1", none, some "a1", none, none, none, none⟩],
           [], [], [], [], 2⟩,
          some df3, none, none, none⟩,
         some ⟨1000, 0, 0, 0, true, false, false, false⟩⟩ := by
  have hb3 : batchStarts 1000 0 3 = [0] := by
    rw [batchStarts_pos (by omega) (by omega), batchStarts_stop (by omega)]
  simp [load_papers, df3, freshCheckpoint, hb3, loadPapersGo,
    processPapersBatch, papersStepF, processPaperRow, insertPaper, DB.empty,
    save_checkpoint, sliceIdx, lastOrD]
  decide

/-- C5 counterexample: on the spec's 3-row papers source with the default
batch size 1000, the final persisted `papers_offset` is 1000 (the batch
start plus the batch size, not capped at the source length), not 3 as the
claim requires; `papers_complete` is still true. -/
theorem c5_capped_offset_cex :
    ((load_papers ⟨none, [], DB.empty, some df3, none, none, none⟩ 1000
        (some freshCheckpoint)).s.file.map (fun c => c.papers_offset))
      ≠ some 3
    ∧ ((load_papers ⟨none, [], DB.empty, some df3, none, none, none⟩ 1000
        (some freshCheckpoint)).s.file.map (fun c => c.papers_offset))
      = some 1000
    ∧ ((load_papers ⟨none, [], DB.empty, some df3, none, none, none⟩ 1000
        (some freshCheckpoint)).s.file.map (fun c => c.papers_complete))
      = some true := by
  rw [load_papers_df3_eval]
  exact ⟨by decide, rfl, rfl⟩

/-- C5 amended: after each committed batch the persisted checkpoint carries
`papers_offset` equal to the batch's start index plus `batch_size`, not
capped at the source length, and the run ends with one further save that
sets `papers_complete = true` on the last such checkpoint; in particular,
for the 3-row papers source with batch size 1000 the final persisted
`papers_offset` is 1000 (not 3), `papers_complete` is true, and the run
counts 1 inserted and 2 skipped rows. -/
theorem c5_uncapped_offset_amended (df : List PaperRow) (batch_size k : Nat)
    (x2 x3 x4 : Nat) (b2 b3 b4 : Bool) (file0 : Option Checkpoint)
    (saves0 : List Checkpoint) (db : DB)
    (sD : Option (List DatasetRow)) (sL : Option (List LinkRow))
    (sE : Option (List EvalRow)) :
    ((load_papers ⟨file0, saves0, db, some df, sD, sL, sE⟩ batch_size
        (some ⟨k, x2, x3, x4, false, b2, b3, b4⟩)).s.saves
      = saves0
        ++ papersBatchSaves ⟨k, x2, x3, x4, false, b2, b3, b4⟩ batch_size k
            df.length
        ++ [{ lastOrD ⟨k, x2, x3, x4, false, b2, b3, b4⟩
                (papersBatchSaves ⟨k, x2, x3, x4, false, b2, b3, b4⟩
                  batch_size k df.length)
              with papers_complete := true }])
    ∧ ((load_papers ⟨none, [], DB.empty, some df3, none, none, none⟩ 1000
          (some freshCheckpoint)).s.file
        = some ⟨1000, 0, 0, 0, true, false, false, false⟩
      ∧ (load_papers ⟨none, [], DB.empty, some df3, none, none, none⟩ 1000
          (some freshCheckpoint)).inserted = 1
      ∧ (load_papers ⟨none, [], DB.empty, some df3, none, none, none⟩ 1000
          (some freshCheckpoint)).skipped = 2) := by
  constructor
  · have htr := loadPapersGo_trace df batch_size
      (batchStarts batch_size k df.length) 0 0 []
      ⟨file0, saves0, db, some df, sD, sL, sE⟩
      ⟨k, x2, x3, x4, false, b2, b3, b4⟩
    rcases htr with ⟨h1, h2⟩
    simp [load_papers, papersBatchSaves, save_checkpoint, h1, h2,
      List.append_assoc]
  · rw [load_papers_df3_eval]
    exact ⟨rfl, rfl, rfl⟩
